import Mathlib

/-!
# Łódź MPK timetable JSON API: cache-and-transform pipeline

A shallow embedding of the HTTP handler of `main.go` (the anonymous function
registered on "/"), together with the library behaviour it relies on:

* `strconv.Atoi` / `strconv.ParseInt(_, 10, 64)` on a 64-bit platform,
* the `xmlquery` node tree and the four XPath queries the handler issues,
* `time.Duration.Seconds/Minutes/Hours` (float64, round-to-nearest-even),
* `encoding/json.Marshal` on the two map shapes the handler marshals,
* the SQLite table `timetable` with its three statements.

Clock readings, the upstream reply and the RFC 3339 formatter are inputs of
the model.  SQL statements are assumed to succeed.
-/

namespace MpkApi

/-! ## strconv -/

/-- Value of an ASCII decimal digit, as in the Go loop `ch -= 48; if ch > 9`. -/
def digitVal (c : Char) : Option Nat :=
  if 48 ≤ c.toNat ∧ c.toNat ≤ 57 then some (c.toNat - 48) else none

/-- Reads a run of decimal digits, accumulating `n*10 + digit`; any other
character is a syntax error. -/
def parseDigits : List Char → Nat → Option Nat
  | [], acc => some acc
  | c :: cs, acc =>
    match digitVal c with
    | none => none
    | some d => parseDigits cs (acc * 10 + d)

/-- Sign handling of `strconv.ParseInt(s, 10, 64)`: splits off one leading
plus or minus sign. The boolean is true for a minus sign. -/
def splitSign : List Char → Bool × List Char
  | [] => (false, [])
  | c :: cs => if c = '-' then (true, cs) else if c = '+' then (false, cs) else (false, c :: cs)

/-- The function `strconv.ParseInt(s, 10, 64)`; `none` stands for a non-nil
error (empty input, a sign without digits, a non-digit, or a value outside
the int64 range). -/
def ParseInt (s : String) : Option Int :=
  match splitSign s.data with
  | (_, []) => none
  | (neg, ds) =>
    match parseDigits ds 0 with
    | none => none
    | some n =>
      if neg then (if n ≤ 2 ^ 63 then some (-(n : Int)) else none)
      else (if n < 2 ^ 63 then some (n : Int) else none)

/-- The function `strconv.Atoi` where `int` is 64 bits wide: the same language
and range as `ParseInt(s, 10, 64)`. -/
def Atoi (s : String) : Option Int := ParseInt s

/-! ## xmlquery -/

/-- Node tree produced by `xmlquery.Parse`. Names are qualified names, so a
prefixed element never matches an unprefixed name test. -/
inductive Node where
  | element (name : String) (attrs : List (String × String)) (children : List Node)
  | text (data : String)

mutual
/-- All proper descendants of a node in document order. -/
def Node.descendants : Node → List Node
  | .element _ _ cs => Node.descendantsOfList cs
  | .text _ => []
/-- Descendant-or-self of every node of a sibling list, in document order. -/
def Node.descendantsOfList : List Node → List Node
  | [] => []
  | c :: cs => (c :: Node.descendants c) ++ Node.descendantsOfList cs
end

/-- The axis `descendant-or-self::node()` from a query's top node. -/
def Node.descOrSelf (n : Node) : List Node := n :: n.descendants

/-- Element name test. -/
def Node.isElem (nm : String) : Node → Bool
  | .element name _ _ => name == nm
  | .text _ => false

/-- Children of a node. -/
def Node.kids : Node → List Node
  | .element _ _ cs => cs
  | .text _ => []

/-- Values of the attributes of a node that carry the given name. -/
def Node.attrValues (nm : String) : Node → List String
  | .element _ attrs _ => (attrs.filter (fun a => a.1 == nm)).map (fun a => a.2)
  | .text _ => []

/-- Query `xmlquery.FindOne(doc, "//Stop/Day")`: for each `Stop` element in
document order, its `Day` children; the first hit or nil. -/
def findStopDay (doc : Node) : Option Node :=
  (((doc.descOrSelf.filter (Node.isElem "Stop")).map
      (fun s => s.kids.filter (Node.isElem "Day"))).flatten).head?

/-- Query `xmlquery.Find(schedules, "//R")`. -/
def findRoutes (schedules : Node) : List Node :=
  schedules.descOrSelf.filter (Node.isElem "R")

/-- Query `xmlquery.FindOne(schedule, "//@name")`, then the attribute text;
`none` is the nil node. -/
def findAttr (schedule : Node) (nm : String) : Option String :=
  ((schedule.descOrSelf.map (Node.attrValues nm)).flatten).head?

/-- Query `xmlquery.FindOne(schedule, "//S/@s")`, then the attribute text. -/
def findEstimate (schedule : Node) : Option String :=
  (((schedule.descOrSelf.filter (Node.isElem "S")).map (Node.attrValues "s")).flatten).head?

/-! ## time.Duration and float64 -/

/-- Duration unit `time.Second`, in nanoseconds. -/
def Second : Int := 1000000000
/-- Duration unit `time.Minute`. -/
def Minute : Int := 60 * Second
/-- Duration unit `time.Hour`. -/
def Hour : Int := 60 * Minute

/-- Conversion to int64 of a product computed in two's complement. -/
def wrapInt64 (x : Int) : Int := (x + 2 ^ 63) % 2 ^ 64 - 2 ^ 63

/-- Saturation of `Time.Sub` at `minDuration` and `maxDuration`. -/
def saturateInt64 (x : Int) : Int :=
  if x < -(2 ^ 63) then -(2 ^ 63) else if 2 ^ 63 - 1 < x then 2 ^ 63 - 1 else x

/-- A non-negative float64 value `num / 2 ^ exp`. -/
structure F64 where
  num : Nat
  exp : Nat

/-- Quotient `a / b` rounded to the nearest integer, ties to even. -/
def rneDiv (a b : Nat) : Nat :=
  let q := a / b
  let r := a % b
  if b < 2 * r ∨ (2 * r = b ∧ q % 2 = 1) then q + 1 else q

/-- Floor of the binary logarithm by repeated halving; the first argument
bounds the number of halvings. -/
def log2Aux : Nat → Nat → Nat
  | 0, _ => 0
  | fuel + 1, n => if n < 2 then 0 else log2Aux fuel (n / 2) + 1

/-- Floor of the binary logarithm of a positive number. -/
def log2 (n : Nat) : Nat := log2Aux n n

/-- The float64 nearest to `num / 2 ^ exp` (53-bit significand). -/
def F64.round (num exp : Nat) : F64 :=
  if num < 2 ^ 53 then ⟨num, exp⟩
  else
    let s := log2 num - 52
    ⟨rneDiv num (2 ^ s) * 2 ^ s, exp⟩

/-- The float64 quotient `float64(a) / float64(b)` for `a < b < 2 ^ 53`. -/
def F64.div (a b : Nat) : F64 :=
  if a = 0 then ⟨0, 0⟩
  else
    let k0 := 52 + log2 b - log2 a
    let k := if a * 2 ^ k0 < 2 ^ 52 * b then k0 + 1 else k0
    ⟨rneDiv (a * 2 ^ k) b, k⟩

/-- The float64 sum `float64(n) + x` for an integer `n < 2 ^ 53`. -/
def F64.addNat (n : Nat) (x : F64) : F64 := F64.round (n * 2 ^ x.exp + x.num) x.exp

/-- The comparison `x == 1`. -/
def F64.isOne (x : F64) : Bool := x.num == 2 ^ x.exp

/-- The conversion `int(x)`, truncating. -/
def F64.toInt (x : F64) : Nat := x.num / 2 ^ x.exp

/-- The three methods `Duration.Seconds`, `Minutes`, `Hours` on a non-negative
duration `d`: `float64(d / unit) + float64(d % unit) / float64(unit)`. -/
def durationIn (unit : Int) (d : Int) : F64 :=
  F64.addNat (d / unit).toNat (F64.div (d % unit).toNat unit.toNat)

/-- The branch chain computing `human_estimated_time` from `timeDiff`. -/
def humanEstimatedTime (timeDiff : Int) : String :=
  if timeDiff < 0 then "Now"
  else if timeDiff < Minute then
    if (durationIn Second timeDiff).isOne then "in 1 second"
    else "in " ++ toString (durationIn Second timeDiff).toInt ++ " seconds"
  else if timeDiff < Hour then
    if (durationIn Minute timeDiff).isOne then "in 1 minute"
    else "in " ++ toString (durationIn Minute timeDiff).toInt ++ " minutes"
  else
    if (durationIn Hour timeDiff).isOne then "in 1 hour"
    else "in " ++ toString (durationIn Hour timeDiff).toInt ++ " hours"

/-! ## encoding/json -/

/-- Lower-case hexadecimal digit. -/
def hexDigit (n : Nat) : Char :=
  if n < 10 then Char.ofNat (48 + n) else Char.ofNat (87 + n)

/-- The backslash character. -/
def backslash : Char := Char.ofNat 92

/-- Escape of one character inside a JSON string, as `json.Marshal` writes it
(HTML escaping on). -/
def escapeChar (c : Char) : List Char :=
  if c.toNat = 92 ∨ c.toNat = 34 then [backslash, c]
  else if c.toNat = 10 then [backslash, 'n']
  else if c.toNat = 13 then [backslash, 'r']
  else if c.toNat = 9 then [backslash, 't']
  else if c.toNat = 8 then [backslash, 'b']
  else if c.toNat = 12 then [backslash, 'f']
  else if c.toNat < 32 ∨ c = '<' ∨ c = '>' ∨ c = '&' then
    [backslash, 'u', '0', '0', hexDigit (c.toNat / 16), hexDigit (c.toNat % 16)]
  else if c.toNat = 8232 then [backslash, 'u', '2', '0', '2', '8']
  else if c.toNat = 8233 then [backslash, 'u', '2', '0', '2', '9']
  else [c]

/-- A JSON string literal. -/
def quote (s : String) : String :=
  "\"" ++ String.mk ((s.data.map escapeChar).flatten) ++ "\""

/-- Marshalling of a one-key map `map[string]string\x7b"error": msg\x7d`. -/
def marshalError (msg : String) : String :=
  "\x7b\"error\":" ++ quote msg ++ "\x7d"

/-- The map `jsonOutput` once all five keys are set. -/
structure Entry where
  route_number : String
  route_direction : String
  vehicle_type : String
  estimated_time : String
  human_estimated_time : String
deriving DecidableEq

/-- Marshalling of one `jsonOutput` map: keys in sorted order. -/
def marshalEntry (e : Entry) : String :=
  "\x7b\"estimated_time\":" ++ quote e.estimated_time ++
  ",\"human_estimated_time\":" ++ quote e.human_estimated_time ++
  ",\"route_direction\":" ++ quote e.route_direction ++
  ",\"route_number\":" ++ quote e.route_number ++
  ",\"vehicle_type\":" ++ quote e.vehicle_type ++ "\x7d"

/-- A Go slice of maps: `none` is the nil slice. -/
abbrev Slice := Option (List Entry)

/-- The builtin `append(output, jsonOutput)`. -/
def goAppend : Slice → Entry → Slice
  | none, e => some [e]
  | some es, e => some (es ++ [e])

/-- Marshalling of a slice: a nil slice is written `null`. -/
def marshalSlice : Slice → String
  | none => "null"
  | some es => "[" ++ ",".intercalate (es.map marshalEntry) ++ "]"

/-- Marshalling of `jsonMap`, the map with the single key `timetable`. -/
def marshalTimetable (output : Slice) : String :=
  "\x7b\"timetable\":" ++ marshalSlice output ++ "\x7d"

/-! ## The table `timetable` -/

/-- A row of the table, the Go struct `Timetable`. `LastUpdated` is the
`CURRENT_TIMESTAMP` text of SQLite, a whole number of seconds. -/
structure Timetable where
  ID : Int
  BusStopNo : Int
  Data : String
  LastUpdated : Int
deriving DecidableEq

/-- The table in scan (rowid) order, with the AUTOINCREMENT high-water mark
that SQLite keeps in `sqlite_sequence`. -/
structure DB where
  rows : List Timetable
  seq : Nat

/-- The table right after `CREATE TABLE IF NOT EXISTS` on a new file. -/
def DB.empty : DB := ⟨[], 0⟩

/-- The text `datetime(now, -1 minutes)`, as seconds. -/
def cutoff (now : Int) : Int := now - 60

/-- Statement `DELETE FROM timetable WHERE last_updated < datetime(now, -1 minutes)`. -/
def sweep (now : Int) (db : DB) : DB :=
  ⟨db.rows.filter (fun r => ¬ (r.LastUpdated < cutoff now)), db.seq⟩

/-- Statement `SELECT * FROM timetable WHERE bus_stop_no = ? AND last_updated >
datetime(now, -1 minutes)` through `QueryRow`: the first matching row. -/
def queryRow (busStopNo : Int) (now : Int) (db : DB) : Option Timetable :=
  db.rows.find? (fun r => r.BusStopNo = busStopNo ∧ cutoff now < r.LastUpdated)

/-- The rowid AUTOINCREMENT gives the next row: one more than the largest
rowid that ever existed. -/
def nextID (db : DB) : Int :=
  (db.rows.foldl (fun m r => max m r.ID) (db.seq : Int)) + 1

/-- Statement `INSERT INTO timetable(bus_stop_no, data) VALUES(?, ?)`; the
column `last_updated` takes its default, the current time. -/
def insert (busStopNo : Int) (jsonData : String) (now : Int) (db : DB) : DB :=
  ⟨db.rows ++ [⟨nextID db, busStopNo, jsonData, now⟩], (nextID db).toNat⟩

/-! ## The handler -/

/-- Reply of the upstream collaborator to `client.Do` followed by
`xmlquery.Parse`. -/
inductive Upstream where
  | transportError
  | malformed
  | document (doc : Node)

/-- Clock readings made while one request is served: the three SQLite
readings (seconds) and, for the route element of index `i`, the first
`time.Now()` (nanoseconds) and the time elapsed until the second one. -/
structure Clock where
  sweepAt : Int
  lookupAt : Int
  insertAt : Int
  entryNow : Nat → Int
  entryElapsed : Nat → Nat

/-- How the handler ends. -/
inductive Outcome where
  | responded (body : String)
  | fatal (body : String)
  | panicked
deriving DecidableEq

/-- Effects on the collaborators, in the order they happen. -/
inductive Effect where
  | sweep
  | lookup
  | fetch
  | insert
deriving DecidableEq

/-- Result of one request: the table afterwards, the outcome and the effects. -/
structure Result where
  db : DB
  outcome : Outcome
  effects : List Effect

/-- Lines 126-133: the vehicle type written to `jsonOutput`. -/
def vehicleTypeName (vehicleType : String) : String :=
  if vehicleType = "A" then "BUS"
  else if vehicleType = "T" then "TRAM"
  else vehicleType

/-- Body of the loop over route elements (lines 123-163). `none` is the nil
pointer dereference of `FindOne(...).InnerText()` on a missing node. -/
def transformEntry (rfc3339 : Int → String) (now : Int) (elapsed : Nat)
    (schedule : Node) : Option Entry :=
  match findAttr schedule "nr" with
  | none => none
  | some nr =>
    match findAttr schedule "dir" with
    | none => none
    | some dir =>
      match findAttr schedule "vt" with
      | none => none
      | some vehicleType =>
        match findEstimate schedule with
        | none => none
        | some s =>
          match ParseInt s with
          | none => some ⟨nr, dir, vehicleTypeName vehicleType, "Unknown", "Unknown"⟩
          | some estimatedTimeSeconds =>
            let d := wrapInt64 (estimatedTimeSeconds * Second)
            let estimatedTime := now + d
            let timeDiff := saturateInt64 (d - elapsed)
            some ⟨nr, dir, vehicleTypeName vehicleType, rfc3339 estimatedTime,
              humanEstimatedTime timeDiff⟩

/-- The loop `for _, schedule := range xmlquery.Find(schedules, "//R")`. -/
def transformLoop (rfc3339 : Int → String) (clk : Clock) :
    List Node → Nat → Slice → Option Slice
  | [], _, output => some output
  | schedule :: rest, i, output =>
    match transformEntry rfc3339 (clk.entryNow i) (clk.entryElapsed i) schedule with
    | none => none
    | some jsonOutput => transformLoop rfc3339 clk rest (i + 1) (goAppend output jsonOutput)

/-- The zero value of `var cachedData Timetable`. -/
def Timetable.zero : Timetable := ⟨0, 0, "", 0⟩

/-- Lines 79-186, reached on a cache miss: fetch the upstream document,
transform it, store the marshalled timetable and respond. `db1` is the table
after the sweep. -/
def fetchTransformStore (rfc3339 : Int → String) (upstream : Int → Upstream) (clk : Clock)
    (db1 : DB) (busStopNo : Int) : Result :=
  match upstream busStopNo with
  | .transportError =>
    ⟨db1, .fatal (marshalError "No data found for the given URL"), [.sweep, .lookup, .fetch]⟩
  | .malformed =>
    ⟨db1, .fatal (marshalError "Invalid XML document"), [.sweep, .lookup, .fetch]⟩
  | .document doc =>
    match findStopDay doc with
    | none =>
      ⟨db1, .responded (marshalError "No data found for the given bus stop number"),
        [.sweep, .lookup, .fetch]⟩
    | some schedules =>
      match transformLoop rfc3339 clk (findRoutes schedules) 0 none with
      | none => ⟨db1, .panicked, [.sweep, .lookup, .fetch]⟩
      | some output =>
        let jsonData := marshalTimetable output
        ⟨insert busStopNo jsonData clk.insertAt db1, .responded jsonData,
          [.sweep, .lookup, .fetch, .insert]⟩

/-- The HTTP handler (lines 43-187) for the raw value of the `busStopNo`
query parameter. -/
def handler (rfc3339 : Int → String) (upstream : Int → Upstream) (clk : Clock)
    (db : DB) (param : String) : Result :=
  match Atoi param with
  | none => ⟨db, .responded (marshalError "Invalid bus stop number"), []⟩
  | some busStopNo =>
    if busStopNo = 0 then
      ⟨db, .responded (marshalError "Invalid bus stop number"), []⟩
    else
      let db1 := sweep clk.sweepAt db
      let cachedData := (queryRow busStopNo clk.lookupAt db1).getD Timetable.zero
      if 0 < cachedData.ID then
        ⟨db1, .responded cachedData.Data, [.sweep, .lookup]⟩
      else
        fetchTransformStore rfc3339 upstream clk db1 busStopNo

/-- One request of a sequence: the parameter, the upstream behaviour and the
clock readings while it is served. -/
structure Request where
  param : String
  upstream : Int → Upstream
  clk : Clock

/-- Requests served one after another. -/
def run (rfc3339 : Int → String) : DB → List Request → DB
  | db, [] => db
  | db, req :: rest => run rfc3339 (handler rfc3339 req.upstream req.clk db req.param).db rest

/-- The SQLite clock never goes back: within a request and from one request
to the next, starting at `t`. -/
def clockMonotone : Int → List Request → Prop
  | _, [] => True
  | t, req :: rest =>
    t ≤ req.clk.sweepAt ∧ req.clk.sweepAt ≤ req.clk.lookupAt ∧
      req.clk.lookupAt ≤ req.clk.insertAt ∧ clockMonotone req.clk.insertAt rest

/-! ## Freshness invariant -/

/-- The predicate of the SELECT: the row has key `k` and lies inside the
freshness window at `now`. -/
def isFresh (k : Int) (now : Int) (r : Timetable) : Bool :=
  decide (r.BusStopNo = k ∧ cutoff now < r.LastUpdated)

/-- Invariant of the table from time `t` on: rowids are positive and no key has
two rows inside the freshness window. -/
def Inv (t : Int) (db : DB) : Prop :=
  (∀ r ∈ db.rows, 0 < r.ID) ∧
    ∀ k now, t ≤ now → db.rows.countP (isFresh k now) ≤ 1

/-! ## Sample inputs -/

/-- A route element with the given attributes and one nested `S` element
carrying the given attributes. -/
def routeElem (attrs estimate : List (String × String)) : Node :=
  .element "R" attrs [.element "S" estimate []]

/-- A document `Stop/Day` holding the given route elements. -/
def stopDay (routes : List Node) : Node :=
  .element "Stop" [] [.element "Day" [] routes]

/-- Route 5 to Centrum, a bus, due after the given offset text. -/
def route5 (offset : String) : Node :=
  routeElem [("nr", "5"), ("dir", "Centrum"), ("vt", "A")] [("s", offset)]

/-- The upstream document of the scenario: one route, offset 125 seconds. -/
def sampleDoc : Node := stopDay [route5 "125"]

/-- A document without any `Stop/Day` node. -/
def noDayDoc : Node := .element "Stop" [] []

/-- A clock that reads `t` seconds for every SQLite statement, `t` seconds in
nanoseconds at the first `time.Now()` of every entry, and lets `elapsed`
nanoseconds pass until the second one. -/
def clockAt (t : Int) (elapsed : Nat) : Clock :=
  ⟨t, t, t, fun _ => t * 1000000000, fun _ => elapsed⟩

/-- A formatter standing in for `Time.Format(time.RFC3339)` in closed examples. -/
def sampleFormat : Int → String := fun _ => "T"

/-- An upstream that always serves the given document. -/
def serve (doc : Node) : Int → Upstream := fun _ => .document doc

/-- The body marshalled from `sampleDoc` under `sampleFormat`. -/
def sampleBody : String :=
  "\x7b\"timetable\":[\x7b\"estimated_time\":\"T\",\"human_estimated_time\":\"in 2 minutes\",\"route_direction\":\"Centrum\",\"route_number\":\"5\",\"vehicle_type\":\"BUS\"\x7d]\x7d"

/-- The table after two requests for stop 5 served one after another from the
empty table, at 0 s and at 60 s. -/
def twoRequests : DB :=
  run sampleFormat DB.empty
    [⟨"5", serve sampleDoc, clockAt 0 0⟩, ⟨"5", serve sampleDoc, clockAt 60 0⟩]

/-- The table after one request for stop 5 at 0 s, when the upstream document
had a `Stop/Day` node without route elements. -/
def oneRequest : DB :=
  run sampleFormat DB.empty [⟨"5", serve (stopDay []), clockAt 0 0⟩]

/-! ## Auxiliary lemmas -/

theorem queryRow_eq_find (k now : Int) (db : DB) :
    queryRow k now db = db.rows.find? (isFresh k now) := rfl

theorem inv_mono {t u : Int} {db : DB} (h : Inv t db) (htu : t ≤ u) : Inv u db :=
  ⟨h.1, fun k now hn => h.2 k now (le_trans htu hn)⟩

theorem inv_sweep {t : Int} {db : DB} (now : Int) (h : Inv t db) : Inv t (sweep now db) := by
  refine ⟨fun r hr => h.1 r (List.mem_of_mem_filter hr), fun k n hn => ?_⟩
  exact le_trans (List.Sublist.countP_le _ (List.filter_sublist _)) (h.2 k n hn)

theorem foldl_max_ge (rows : List Timetable) (m : Int) :
    m ≤ rows.foldl (fun m r => max m r.ID) m := by
  induction rows generalizing m with
  | nil => simp
  | cons r rs ih => exact le_trans (le_max_left m r.ID) (ih (max m r.ID))

theorem nextID_pos (db : DB) : 0 < nextID db := by
  have h := foldl_max_ge db.rows (db.seq : Int)
  unfold nextID
  omega

theorem countP_fresh_zero_of_miss {k tl now : Int} {db : DB}
    (hmiss : queryRow k tl db = none) (hle : tl ≤ now) :
    db.rows.countP (isFresh k now) = 0 := by
  rw [queryRow_eq_find, List.find?_eq_none] at hmiss
  rw [List.countP_eq_zero]
  intro r hr hf
  apply hmiss r hr
  simp only [isFresh, cutoff, decide_eq_true_eq] at hf ⊢
  exact ⟨hf.1, by omega⟩

theorem inv_insert {t tl ti : Int} {db : DB} (k : Int) (data : String)
    (h : Inv t db) (ht : t ≤ tl) (hmiss : queryRow k tl db = none) (hle : tl ≤ ti) :
    Inv ti (insert k data ti db) := by
  constructor
  · intro r hr
    simp only [insert, List.mem_append, List.mem_singleton] at hr
    rcases hr with hr | hr
    · exact h.1 r hr
    · rw [hr]; exact nextID_pos db
  · intro key now hn
    simp only [insert, List.countP_append, List.countP_cons, List.countP_nil]
    by_cases hk : key = k
    · subst hk
      rw [countP_fresh_zero_of_miss hmiss (le_trans hle hn)]
      split <;> omega
    · have : isFresh key now ⟨nextID db, k, data, ti⟩ = false := by
        simp [isFresh]; intro hh; exact absurd hh.symm hk
      rw [this]
      have := h.2 key now (by omega)
      simpa using this


theorem miss_of_id_not_pos {t : Int} {db : DB} (k now : Int) (h : Inv t db)
    (hid : ¬ 0 < ((queryRow k now db).getD Timetable.zero).ID) : queryRow k now db = none := by
  cases hq : queryRow k now db with
  | none => rfl
  | some r =>
    rw [hq] at hid
    rw [queryRow_eq_find] at hq
    exact absurd (h.1 r (List.mem_of_find?_eq_some hq)) hid

theorem handler_invalid (rfc3339 : Int → String) (upstream : Int → Upstream) (clk : Clock)
    (db : DB) (param : String) (h : Atoi param = none ∨ Atoi param = some 0) :
    handler rfc3339 upstream clk db param =
      ⟨db, .responded (marshalError "Invalid bus stop number"), []⟩ := by
  rcases h with h | h <;> simp [handler, h]

theorem handler_hit (rfc3339 : Int → String) (upstream : Int → Upstream) (clk : Clock)
    (db : DB) (param : String) (k : Int) (hk : Atoi param = some k) (hk0 : k ≠ 0)
    (hid : 0 < ((queryRow k clk.lookupAt (sweep clk.sweepAt db)).getD Timetable.zero).ID) :
    handler rfc3339 upstream clk db param =
      ⟨sweep clk.sweepAt db,
        .responded ((queryRow k clk.lookupAt (sweep clk.sweepAt db)).getD Timetable.zero).Data,
        [.sweep, .lookup]⟩ := by
  simp [handler, hk, hk0, hid]

theorem handler_miss (rfc3339 : Int → String) (upstream : Int → Upstream) (clk : Clock)
    (db : DB) (param : String) (k : Int) (hk : Atoi param = some k) (hk0 : k ≠ 0)
    (hid : ¬ 0 < ((queryRow k clk.lookupAt (sweep clk.sweepAt db)).getD Timetable.zero).ID) :
    handler rfc3339 upstream clk db param =
      fetchTransformStore rfc3339 upstream clk (sweep clk.sweepAt db) k := by
  simp only [handler, hk, hk0, if_false, if_neg hid]

theorem fetchTransformStore_db (rfc3339 : Int → String) (upstream : Int → Upstream)
    (clk : Clock) (db1 : DB) (k : Int) :
    (fetchTransformStore rfc3339 upstream clk db1 k).db = db1 ∨
      ∃ data, (fetchTransformStore rfc3339 upstream clk db1 k).db =
        insert k data clk.insertAt db1 := by
  unfold fetchTransformStore
  split
  · exact Or.inl rfl
  · exact Or.inl rfl
  · split
    · exact Or.inl rfl
    · split
      · exact Or.inl rfl
      · exact Or.inr ⟨_, rfl⟩

theorem inv_handler (rfc3339 : Int → String) (upstream : Int → Upstream) (clk : Clock)
    (db : DB) (param : String) {t : Int} (h : Inv t db) (ht : t ≤ clk.sweepAt)
    (h1 : clk.sweepAt ≤ clk.lookupAt) (h2 : clk.lookupAt ≤ clk.insertAt) :
    Inv clk.insertAt (handler rfc3339 upstream clk db param).db := by
  have hT : t ≤ clk.insertAt := by omega
  have hs : Inv clk.insertAt (sweep clk.sweepAt db) := inv_sweep _ (inv_mono h hT)
  cases hk : Atoi param with
  | none => rw [handler_invalid _ _ _ _ _ (Or.inl hk)]; exact inv_mono h hT
  | some k =>
    by_cases hk0 : k = 0
    · rw [handler_invalid _ _ _ _ _ (Or.inr (hk0 ▸ hk))]; exact inv_mono h hT
    · by_cases hid : 0 < ((queryRow k clk.lookupAt (sweep clk.sweepAt db)).getD Timetable.zero).ID
      · rw [handler_hit _ _ _ _ _ k hk hk0 hid]; exact hs
      · rw [handler_miss _ _ _ _ _ k hk hk0 hid]
        rcases fetchTransformStore_db rfc3339 upstream clk (sweep clk.sweepAt db) k with e | ⟨data, e⟩
        · rw [e]; exact hs
        · rw [e]
          exact inv_insert k data (inv_sweep clk.sweepAt h) (by omega)
            (miss_of_id_not_pos k clk.lookupAt (inv_sweep clk.sweepAt h) hid) h2

theorem inv_run (rfc3339 : Int → String) (reqs : List Request) :
    ∀ (db : DB) (t : Int), Inv t db → clockMonotone t reqs →
      ∃ u, t ≤ u ∧ Inv u (run rfc3339 db reqs) ∧
        ∀ more, clockMonotone t (reqs ++ more) → clockMonotone u more := by
  induction reqs with
  | nil => intro db t h _; exact ⟨t, le_refl t, h, fun more hm => hm⟩
  | cons req rest ih =>
    intro db t h hm
    obtain ⟨h0, h1, h2, hrest⟩ := hm
    obtain ⟨u, hu, hinv, hmore⟩ := ih _ _ (inv_handler rfc3339 req.upstream req.clk db req.param h h0 h1 h2) hrest
    refine ⟨u, by omega, hinv, fun more hm2 => hmore more hm2.2.2.2⟩


theorem fetchTransformStore_effects (rfc3339 : Int → String) (upstream : Int → Upstream)
    (clk : Clock) (db1 : DB) (k : Int) :
    (fetchTransformStore rfc3339 upstream clk db1 k).effects = [.sweep, .lookup, .fetch] ∨
      (fetchTransformStore rfc3339 upstream clk db1 k).effects =
        [.sweep, .lookup, .fetch, .insert] := by
  unfold fetchTransformStore
  split
  · exact Or.inl rfl
  · exact Or.inl rfl
  · split
    · exact Or.inl rfl
    · split
      · exact Or.inl rfl
      · exact Or.inr rfl

theorem fetchTransformStore_fetch_count (rfc3339 : Int → String) (upstream : Int → Upstream)
    (clk : Clock) (db1 : DB) (k : Int) :
    (fetchTransformStore rfc3339 upstream clk db1 k).effects.count Effect.fetch = 1 := by
  rcases fetchTransformStore_effects rfc3339 upstream clk db1 k with e | e <;> rw [e] <;> decide

theorem handler_fetch_count_le (rfc3339 : Int → String) (upstream : Int → Upstream)
    (clk : Clock) (db : DB) (param : String) :
    (handler rfc3339 upstream clk db param).effects.count Effect.fetch ≤ 1 := by
  cases hk : Atoi param with
  | none => rw [handler_invalid _ _ _ _ _ (Or.inl hk)]; simp
  | some k =>
    by_cases hk0 : k = 0
    · rw [handler_invalid _ _ _ _ _ (Or.inr (hk0 ▸ hk))]; simp
    · by_cases hid : 0 < ((queryRow k clk.lookupAt (sweep clk.sweepAt db)).getD Timetable.zero).ID
      · rw [handler_hit _ _ _ _ _ k hk hk0 hid]; simp
      · rw [handler_miss _ _ _ _ _ k hk hk0 hid, fetchTransformStore_fetch_count]

theorem handler_effects_ne_nil (rfc3339 : Int → String) (upstream : Int → Upstream)
    (clk : Clock) (db : DB) (param : String) (k : Int) (hk : Atoi param = some k)
    (hk0 : k ≠ 0) : (handler rfc3339 upstream clk db param).effects ≠ [] := by
  by_cases hid : 0 < ((queryRow k clk.lookupAt (sweep clk.sweepAt db)).getD Timetable.zero).ID
  · rw [handler_hit _ _ _ _ _ k hk hk0 hid]; simp
  · rw [handler_miss _ _ _ _ _ k hk hk0 hid]
    rcases fetchTransformStore_effects rfc3339 upstream clk (sweep clk.sweepAt db) k with e | e <;>
      rw [e] <;> simp

theorem find?_filter_of_find? {α : Type} (p q keep : α → Bool) (row : α) :
    ∀ rows : List α, rows.find? p = some row → q row = true → keep row = true →
      (∀ x, q x = true → p x = true) → (rows.filter keep).find? q = some row := by
  intro rows
  induction rows with
  | nil => intro h; simp at h
  | cons x xs ih =>
    intro h hq hkeep himp
    by_cases hp : p x = true
    · have hx : x = row := by simpa [List.find?, hp] using h
      subst hx
      simp [List.filter, hkeep, List.find?, hq]
    · have hqx : q x = false := by
        cases hqx : q x with
        | false => rfl
        | true => exact absurd (himp x hqx) hp
      have h2 : xs.find? p = some row := by simpa [List.find?, hp] using h
      have := ih h2 hq hkeep himp
      cases hk : keep x <;> simp [List.filter, hk, List.find?, hqx, this]

theorem handler_db_valid (rfc3339 : Int → String) (upstream : Int → Upstream) (clk : Clock)
    (db : DB) (param : String) (k : Int) (hk : Atoi param = some k) (hk0 : k ≠ 0) :
    (handler rfc3339 upstream clk db param).db = sweep clk.sweepAt db ∨
      ∃ data, (handler rfc3339 upstream clk db param).db =
        insert k data clk.insertAt (sweep clk.sweepAt db) := by
  by_cases hid : 0 < ((queryRow k clk.lookupAt (sweep clk.sweepAt db)).getD Timetable.zero).ID
  · rw [handler_hit _ _ _ _ _ k hk hk0 hid]; exact Or.inl rfl
  · rw [handler_miss _ _ _ _ _ k hk hk0 hid]
    exact fetchTransformStore_db rfc3339 upstream clk (sweep clk.sweepAt db) k

theorem not_mem_sweep_of_expired {clk : Clock} {db : DB} {row : Timetable}
    (hexp : 60 < clk.sweepAt - row.LastUpdated) : row ∉ (sweep clk.sweepAt db).rows := by
  intro hmem
  have := (List.mem_filter.mp hmem).2
  simp only [cutoff, decide_eq_true_eq, not_lt] at this
  omega

theorem marshalError_invalid :
    marshalError "Invalid bus stop number" =
      "\x7b\"error\":\"Invalid bus stop number\"\x7d" := by decide

theorem marshalError_no_data :
    marshalError "No data found for the given bus stop number" =
      "\x7b\"error\":\"No data found for the given bus stop number\"\x7d" := by decide

/-! ## Claims -/

set_option maxRecDepth 100000

/-- Claim C1, as amended: when `Handle(k)` is called twice with the upstream
unchanged, both calls return the same body and the upstream is invoked at most
once over the two calls, provided the first call's answer is one the cache
carries to the second call: the parameter is invalid (no cache involved); or
the first lookup selects a record with a positive rowid that is still inside
the one-minute window at the second call's lookup; or the first lookup finds
no record, the upstream document has a `Stop/Day` node whose route elements
all transform, and the record inserted by the first call is still inside the
one-minute window at the second call's lookup. -/
theorem repeat_within_ttl (rfc3339 : Int → String) (upstream : Int → Upstream)
    (c1 c2 : Clock) (db : DB) (param : String)
    (hclk : c1.lookupAt ≤ c2.lookupAt ∧ c2.sweepAt ≤ c2.lookupAt)
    (h : (Atoi param = none ∨ Atoi param = some 0) ∨
      ∃ k, Atoi param = some k ∧ k ≠ 0 ∧
        ((∃ row, queryRow k c1.lookupAt (sweep c1.sweepAt db) = some row ∧ 0 < row.ID ∧
            cutoff c2.lookupAt < row.LastUpdated) ∨
          (queryRow k c1.lookupAt (sweep c1.sweepAt db) = none ∧
            cutoff c2.lookupAt < c1.insertAt ∧
            ∃ doc schedules output, upstream k = .document doc ∧
              findStopDay doc = some schedules ∧
              transformLoop rfc3339 c1 (findRoutes schedules) 0 none = some output))) :
    ∃ body,
      (handler rfc3339 upstream c1 db param).outcome = .responded body ∧
      (handler rfc3339 upstream c2 (handler rfc3339 upstream c1 db param).db param).outcome =
        .responded body ∧
      (handler rfc3339 upstream c1 db param).effects.count Effect.fetch +
        (handler rfc3339 upstream c2
          (handler rfc3339 upstream c1 db param).db param).effects.count Effect.fetch ≤ 1 := by
  rcases h with hinv | ⟨k, hk, hk0, hcase⟩
  · rw [handler_invalid _ _ c2 _ _ hinv, handler_invalid _ _ c1 _ _ hinv]
    exact ⟨_, rfl, rfl, by simp⟩
  · rcases hcase with ⟨row, hrow, hid, hfresh⟩ | ⟨hnone, hfresh, doc, schedules, output, hup, hday, hloop⟩
    · have hid1 : 0 < ((queryRow k c1.lookupAt (sweep c1.sweepAt db)).getD Timetable.zero).ID := by
        rw [hrow]; exact hid
      have hkey : row.BusStopNo = k ∧ cutoff c1.lookupAt < row.LastUpdated := by
        have := List.find?_some (queryRow_eq_find k c1.lookupAt _ ▸ hrow)
        simpa [isFresh] using this
      have hq : queryRow k c2.lookupAt (sweep c2.sweepAt (sweep c1.sweepAt db)) = some row := by
        rw [queryRow_eq_find] at hrow ⊢
        refine find?_filter_of_find? _ _ _ row _ hrow ?_ ?_ ?_
        · simp only [isFresh, decide_eq_true_eq]; exact ⟨hkey.1, hfresh⟩
        · simp only [cutoff, decide_eq_true_eq, not_lt] at hfresh ⊢
          omega
        · intro x hx
          simp only [isFresh, cutoff, decide_eq_true_eq] at hx ⊢
          exact ⟨hx.1, by omega⟩
      have hid2 : 0 < ((queryRow k c2.lookupAt
          (sweep c2.sweepAt (sweep c1.sweepAt db))).getD Timetable.zero).ID := by
        rw [hq]; exact hid
      rw [handler_hit _ _ c1 _ _ k hk hk0 hid1, handler_hit _ _ c2 _ _ k hk hk0 hid2, hq, hrow]
      exact ⟨_, rfl, rfl, by simp⟩
    · have hid1 : ¬ 0 < ((queryRow k c1.lookupAt (sweep c1.sweepAt db)).getD
          Timetable.zero).ID := by
        rw [hnone]; decide
      have e1 : handler rfc3339 upstream c1 db param =
          ⟨insert k (marshalTimetable output) c1.insertAt (sweep c1.sweepAt db),
            .responded (marshalTimetable output), [.sweep, .lookup, .fetch, .insert]⟩ := by
        rw [handler_miss _ _ _ _ _ k hk hk0 hid1]
        simp only [fetchTransformStore, hup, hday, hloop]
      have hold : (sweep c1.sweepAt db).rows.find? (isFresh k c2.lookupAt) = none := by
        rw [List.find?_eq_none]
        intro x hx hf
        have h0 := countP_fresh_zero_of_miss hnone hclk.1
        rw [List.countP_eq_zero] at h0
        exact h0 x hx hf
      have hq : queryRow k c2.lookupAt
          (sweep c2.sweepAt
            (insert k (marshalTimetable output) c1.insertAt (sweep c1.sweepAt db))) =
          some ⟨nextID (sweep c1.sweepAt db), k, marshalTimetable output, c1.insertAt⟩ := by
        rw [queryRow_eq_find]
        refine find?_filter_of_find? (isFresh k c2.lookupAt) _ _ _ _ ?_ ?_ ?_ (fun x hx => hx)
        · simp only [insert, List.find?_append, hold, Option.none_or, List.find?_singleton]
          simp [isFresh, hfresh]
        · simp [isFresh, hfresh]
        · simp only [cutoff, decide_eq_true_eq, not_lt] at hfresh ⊢
          omega
      have hid2 : 0 < ((queryRow k c2.lookupAt
          (sweep c2.sweepAt
            (insert k (marshalTimetable output) c1.insertAt (sweep c1.sweepAt db)))).getD
              Timetable.zero).ID := by
        rw [hq]; exact nextID_pos _
      rw [e1, handler_hit _ _ c2 _ _ k hk hk0 hid2, hq]
      exact ⟨_, rfl, rfl, by simp⟩

/-- Witness of claim C1, as amended: stop 5 on the empty table at 0 s, then
again at 30 s, with the scenario document upstream. -/
theorem repeat_within_ttl_witness :
    (((clockAt 0 0).lookupAt ≤ (clockAt 30 0).lookupAt ∧
        (clockAt 30 0).sweepAt ≤ (clockAt 30 0).lookupAt) ∧
      Atoi "5" = some 5 ∧ (5 : Int) ≠ 0 ∧
      queryRow 5 (clockAt 0 0).lookupAt (sweep (clockAt 0 0).sweepAt DB.empty) = none ∧
      cutoff (clockAt 30 0).lookupAt < (clockAt 0 0).insertAt ∧
      transformLoop sampleFormat (clockAt 0 0) (findRoutes (.element "Day" [] [route5 "125"])) 0
          none = some (some [⟨"5", "Centrum", "BUS", "T", "in 2 minutes"⟩])) ∧
    ∃ body,
      (handler sampleFormat (serve sampleDoc) (clockAt 0 0) DB.empty "5").outcome =
        .responded body ∧
      (handler sampleFormat (serve sampleDoc) (clockAt 30 0)
          (handler sampleFormat (serve sampleDoc) (clockAt 0 0) DB.empty "5").db "5").outcome =
        .responded body ∧
      (handler sampleFormat (serve sampleDoc) (clockAt 0 0) DB.empty "5").effects.count Effect.fetch +
        (handler sampleFormat (serve sampleDoc) (clockAt 30 0)
          (handler sampleFormat (serve sampleDoc) (clockAt 0 0) DB.empty "5").db "5").effects.count
            Effect.fetch ≤ 1 :=
  ⟨⟨by decide, by decide, by decide, by decide, by decide, by decide⟩,
    repeat_within_ttl sampleFormat (serve sampleDoc) (clockAt 0 0) (clockAt 30 0) DB.empty "5"
      (by decide)
      (Or.inr ⟨5, by decide, by decide, Or.inr ⟨by decide, by decide,
        sampleDoc, .element "Day" [] [route5 "125"],
        some [⟨"5", "Centrum", "BUS", "T", "in 2 minutes"⟩], rfl, rfl, by decide⟩⟩)⟩

/-- Counterexample to claim C1 as stated. First: with an upstream document
that has no `Stop/Day` node, two calls for stop 5 one second apart invoke the
upstream twice. Second: a record stored at 0 s is served at 59 s and has
expired at 61 s, so the two calls, two seconds apart, return different
bodies. -/
theorem repeat_fetches_twice_or_differs :
    ¬ ((handler sampleFormat (serve noDayDoc) (clockAt 1 0)
            (handler sampleFormat (serve noDayDoc) (clockAt 0 0) DB.empty "5").db "5").outcome =
          (handler sampleFormat (serve noDayDoc) (clockAt 0 0) DB.empty "5").outcome ∧
        (handler sampleFormat (serve noDayDoc) (clockAt 0 0) DB.empty "5").effects.count
            Effect.fetch +
          (handler sampleFormat (serve noDayDoc) (clockAt 1 0)
            (handler sampleFormat (serve noDayDoc) (clockAt 0 0) DB.empty "5").db "5").effects.count
              Effect.fetch ≤ 1) ∧
      ¬ ((handler sampleFormat (serve sampleDoc) (clockAt 61 0)
            (handler sampleFormat (serve sampleDoc) (clockAt 59 0) oneRequest "5").db "5").outcome =
          (handler sampleFormat (serve sampleDoc) (clockAt 59 0) oneRequest "5").outcome ∧
        (handler sampleFormat (serve sampleDoc) (clockAt 59 0) oneRequest "5").effects.count
            Effect.fetch +
          (handler sampleFormat (serve sampleDoc) (clockAt 61 0)
            (handler sampleFormat (serve sampleDoc) (clockAt 59 0) oneRequest "5").db "5").effects.count
              Effect.fetch ≤ 1) := by
  decide

/-- Claim C2, as amended: a record for `k` stored at `s` is removed by the
sweep of a `Handle(k)` whose clock reads more than one minute after `s`; it is
absent from the table after the request and the lookup does not select it.
When no other record for `k` is inside the one-minute window, the lookup
misses and the request performs exactly one upstream fetch. -/
theorem expired_record_unreachable (rfc3339 : Int → String) (upstream : Int → Upstream)
    (clk : Clock) (db : DB) (param : String) (k : Int) (row : Timetable)
    (hk : Atoi param = some k) (hk0 : k ≠ 0) (_hrow : row ∈ db.rows)
    (_hkey : row.BusStopNo = k) (hexp : 60 < clk.sweepAt - row.LastUpdated)
    (hclk : clk.sweepAt ≤ clk.lookupAt ∧ clk.lookupAt ≤ clk.insertAt) :
    row ∉ (sweep clk.sweepAt db).rows ∧
      row ∉ (handler rfc3339 upstream clk db param).db.rows ∧
      queryRow k clk.lookupAt (sweep clk.sweepAt db) ≠ some row ∧
      ((∀ other ∈ db.rows, other.BusStopNo = k → ¬ cutoff clk.lookupAt < other.LastUpdated) →
        queryRow k clk.lookupAt (sweep clk.sweepAt db) = none ∧
          (handler rfc3339 upstream clk db param).effects.count Effect.fetch = 1) := by
  have hswept : row ∉ (sweep clk.sweepAt db).rows := not_mem_sweep_of_expired hexp
  refine ⟨hswept, ?_, ?_, ?_⟩
  · rcases handler_db_valid rfc3339 upstream clk db param k hk hk0 with e | ⟨data, e⟩
    · rw [e]; exact hswept
    · rw [e]
      simp only [insert, List.mem_append, List.mem_singleton, not_or]
      refine ⟨hswept, fun h => ?_⟩
      have : row.LastUpdated = clk.insertAt := by rw [h]
      omega
  · intro h
    rw [queryRow_eq_find] at h
    exact hswept (List.mem_of_find?_eq_some h)
  · intro hall
    have hnone : queryRow k clk.lookupAt (sweep clk.sweepAt db) = none := by
      rw [queryRow_eq_find, List.find?_eq_none]
      intro x hx hf
      simp only [isFresh, decide_eq_true_eq] at hf
      exact hall x (List.mem_of_mem_filter hx) hf.1 hf.2
    refine ⟨hnone, ?_⟩
    have hid : ¬ 0 < ((queryRow k clk.lookupAt (sweep clk.sweepAt db)).getD Timetable.zero).ID := by
      rw [hnone]; decide
    rw [handler_miss _ _ _ _ _ k hk hk0 hid, fetchTransformStore_fetch_count]

/-- Witness of claim C2, as amended: one record for stop 5 stored at 0 s and a
request for stop 5 at 61 s. -/
theorem expired_record_unreachable_witness :
    (Atoi "5" = some 5 ∧ (5 : Int) ≠ 0 ∧
      (⟨1, 5, sampleBody, 0⟩ : Timetable) ∈ (DB.mk [⟨1, 5, sampleBody, 0⟩] 1).rows ∧
      60 < (clockAt 61 0).sweepAt - 0 ∧
      ((clockAt 61 0).sweepAt ≤ (clockAt 61 0).lookupAt ∧
        (clockAt 61 0).lookupAt ≤ (clockAt 61 0).insertAt)) ∧
    ((⟨1, 5, sampleBody, 0⟩ : Timetable) ∉
        (sweep (clockAt 61 0).sweepAt (DB.mk [⟨1, 5, sampleBody, 0⟩] 1)).rows ∧
      (⟨1, 5, sampleBody, 0⟩ : Timetable) ∉
        (handler sampleFormat (serve sampleDoc) (clockAt 61 0)
          (DB.mk [⟨1, 5, sampleBody, 0⟩] 1) "5").db.rows ∧
      queryRow 5 (clockAt 61 0).lookupAt
          (sweep (clockAt 61 0).sweepAt (DB.mk [⟨1, 5, sampleBody, 0⟩] 1)) ≠
        some ⟨1, 5, sampleBody, 0⟩ ∧
      ((∀ other ∈ (DB.mk [⟨1, 5, sampleBody, 0⟩] 1).rows, other.BusStopNo = 5 →
          ¬ cutoff (clockAt 61 0).lookupAt < other.LastUpdated) →
        queryRow 5 (clockAt 61 0).lookupAt
            (sweep (clockAt 61 0).sweepAt (DB.mk [⟨1, 5, sampleBody, 0⟩] 1)) = none ∧
          (handler sampleFormat (serve sampleDoc) (clockAt 61 0)
            (DB.mk [⟨1, 5, sampleBody, 0⟩] 1) "5").effects.count Effect.fetch = 1)) :=
  ⟨⟨by decide, by decide, by decide, by decide, by decide⟩,
    expired_record_unreachable sampleFormat (serve sampleDoc) (clockAt 61 0)
      (DB.mk [⟨1, 5, sampleBody, 0⟩] 1) "5" 5 ⟨1, 5, sampleBody, 0⟩ (by decide) (by decide)
      (by decide) (by decide) (by decide) (by decide)⟩

/-- Counterexample to claim C2 as stated: after requests for stop 5 at 0 s and
at 60 s the table holds a record stored at 0 s and one stored at 60 s. A
request at 61 s comes more than one minute after the first record was stored,
yet it is served from the second record and performs no upstream fetch. -/
theorem expired_beside_fresh_no_fetch :
    twoRequests.rows = [⟨1, 5, sampleBody, 0⟩, ⟨2, 5, sampleBody, 60⟩] ∧
      60 < (clockAt 61 0).sweepAt - 0 ∧
      queryRow 5 (clockAt 61 0).lookupAt (sweep (clockAt 61 0).sweepAt twoRequests) =
        some ⟨2, 5, sampleBody, 60⟩ ∧
      ¬ (handler sampleFormat (serve sampleDoc) (clockAt 61 0) twoRequests "5").effects.count
          Effect.fetch = 1 := by
  decide

/-- Claim C3: in every table reached from the empty table by requests served
one after another under a non-decreasing clock, at the freshness check of the
next request every key has at most one record with
`last_updated > now - 1 minute`, and the lookup only returns a record of the
requested key that is inside that window. -/
theorem fresh_record_unique_at_check (rfc3339 : Int → String) (reqs : List Request)
    (req : Request) (t0 : Int) (hclk : clockMonotone t0 (reqs ++ [req])) :
    (∀ k, ((sweep req.clk.sweepAt (run rfc3339 DB.empty reqs)).rows.filter
        (fun r => decide (r.BusStopNo = k ∧ req.clk.lookupAt - 60 < r.LastUpdated))).length ≤ 1) ∧
      ∀ k r, queryRow k req.clk.lookupAt
          (sweep req.clk.sweepAt (run rfc3339 DB.empty reqs)) = some r →
        r.BusStopNo = k ∧ req.clk.lookupAt - 60 < r.LastUpdated := by
  have h0 : Inv t0 DB.empty :=
    ⟨fun r hr => by simp [DB.empty] at hr, fun k now _ => by simp [DB.empty]⟩
  have hpre : clockMonotone t0 reqs := by
    clear h0
    induction reqs generalizing t0 with
    | nil => trivial
    | cons a rest ih => exact ⟨hclk.1, hclk.2.1, hclk.2.2.1, ih _ hclk.2.2.2⟩
  obtain ⟨u, _, hinv, hmore⟩ := inv_run rfc3339 reqs DB.empty t0 h0 hpre
  have hreq := hmore [req] hclk
  have hu : u ≤ req.clk.lookupAt := le_trans hreq.1 hreq.2.1
  constructor
  · intro k
    have := (inv_sweep req.clk.sweepAt hinv).2 k req.clk.lookupAt hu
    rw [List.countP_eq_length_filter] at this
    exact this
  · intro k r hq
    rw [queryRow_eq_find] at hq
    have := List.find?_some hq
    simpa [isFresh, cutoff] using this

/-- Witness of claim C3: a request for stop 5 at 0 s followed by the freshness
check of a request at 30 s. -/
theorem fresh_record_unique_at_check_witness :
    clockMonotone 0
        ([⟨"5", serve sampleDoc, clockAt 0 0⟩] ++ [⟨"5", serve sampleDoc, clockAt 30 0⟩]) ∧
    ((∀ k, ((sweep (clockAt 30 0).sweepAt
          (run sampleFormat DB.empty [⟨"5", serve sampleDoc, clockAt 0 0⟩])).rows.filter
        (fun r => decide (r.BusStopNo = k ∧ (clockAt 30 0).lookupAt - 60 < r.LastUpdated))).length
          ≤ 1) ∧
      ∀ k r, queryRow k (clockAt 30 0).lookupAt
          (sweep (clockAt 30 0).sweepAt
            (run sampleFormat DB.empty [⟨"5", serve sampleDoc, clockAt 0 0⟩])) = some r →
        r.BusStopNo = k ∧ (clockAt 30 0).lookupAt - 60 < r.LastUpdated) :=
  ⟨by simp [clockMonotone, clockAt],
    fresh_record_unique_at_check sampleFormat [⟨"5", serve sampleDoc, clockAt 0 0⟩]
      ⟨"5", serve sampleDoc, clockAt 30 0⟩ 0 (by simp [clockMonotone, clockAt])⟩

/-- Claim C4, as amended: the handler answers with the invalid-stop error, and
goes no further (no sweep, lookup, fetch or insert, table unchanged), exactly
for the parameter values that `Atoi` rejects or reads as zero; every other
value, negative integers included, passes validation. -/
theorem invalid_input_iff (rfc3339 : Int → String) (upstream : Int → Upstream) (clk : Clock)
    (db : DB) (param : String) :
    (Atoi param = none ∨ Atoi param = some 0) ↔
      ((handler rfc3339 upstream clk db param).outcome =
          .responded "\x7b\"error\":\"Invalid bus stop number\"\x7d" ∧
        (handler rfc3339 upstream clk db param).effects = [] ∧
        (handler rfc3339 upstream clk db param).db.rows = db.rows) := by
  constructor
  · intro h
    rw [handler_invalid _ _ _ _ _ h, marshalError_invalid]
    exact ⟨rfl, rfl, rfl⟩
  · intro h
    cases hk : Atoi param with
    | none => exact Or.inl rfl
    | some k =>
      by_cases hk0 : k = 0
      · exact Or.inr (by rw [hk0])
      · exact absurd h.2.1 (handler_effects_ne_nil rfc3339 upstream clk db param k hk hk0)

/-- Counterexample to claim C4 as stated: the value `-5` is not a positive
integer, yet the handler does not answer with the invalid-stop error; it
sweeps, looks up and fetches from the upstream. -/
theorem negative_stop_passes_validation :
    Atoi "-5" = some (-5) ∧
      ¬ ((handler sampleFormat (serve noDayDoc) (clockAt 0 0) DB.empty "-5").outcome =
            .responded "\x7b\"error\":\"Invalid bus stop number\"\x7d" ∧
          (handler sampleFormat (serve noDayDoc) (clockAt 0 0) DB.empty "-5").effects = []) ∧
      (handler sampleFormat (serve noDayDoc) (clockAt 0 0) DB.empty "-5").effects =
        [.sweep, .lookup, .fetch] := by
  decide

/-- Claim C5, evaluated where it fails: a difference of 1.5 s gives
"in 1 seconds", 90 s gives "in 1 minutes" and 5400 s gives "in 1 hours"; a
route element due in 2 s whose second clock reading comes 100 ns after the
first gets "in 1 seconds". The singular is produced only at exactly one
unit. -/
theorem singular_only_at_exact_unit (rfc3339 : Int → String) (now : Int) :
    humanEstimatedTime 1500000000 = "in 1 seconds" ∧
      humanEstimatedTime 90000000000 = "in 1 minutes" ∧
      humanEstimatedTime 5400000000000 = "in 1 hours" ∧
      humanEstimatedTime 1000000000 = "in 1 second" ∧
      transformEntry rfc3339 now 100 (route5 "2") =
        some ⟨"5", "Centrum", "BUS", rfc3339 (now + 2000000000), "in 1 seconds"⟩ := by
  refine ⟨by decide, by decide, by decide, by decide, rfl⟩

/-- Claim C6, evaluated where it fails: the same offset of 1 second gives
"in 1 second" when both clock readings coincide and "in 0 seconds" when the
second one is 1 ns later; offset 0 with coinciding readings gives
"in 0 seconds"; offsets 60 and 3600 with the second reading 1 ns later give
"in 59 seconds" and "in 59 minutes". -/
theorem phrase_depends_on_second_clock_read (rfc3339 : Int → String) (now : Int) :
    transformEntry rfc3339 now 0 (route5 "1") =
        some ⟨"5", "Centrum", "BUS", rfc3339 (now + 1000000000), "in 1 second"⟩ ∧
      transformEntry rfc3339 now 1 (route5 "1") =
        some ⟨"5", "Centrum", "BUS", rfc3339 (now + 1000000000), "in 0 seconds"⟩ ∧
      transformEntry rfc3339 now 0 (route5 "0") =
        some ⟨"5", "Centrum", "BUS", rfc3339 (now + 0), "in 0 seconds"⟩ ∧
      transformEntry rfc3339 now 1 (route5 "60") =
        some ⟨"5", "Centrum", "BUS", rfc3339 (now + 60000000000), "in 59 seconds"⟩ ∧
      transformEntry rfc3339 now 1 (route5 "3600") =
        some ⟨"5", "Centrum", "BUS", rfc3339 (now + 3600000000000), "in 59 minutes"⟩ := by
  refine ⟨?_, ?_, ?_, ?_, ?_⟩ <;> rfl

/-- Claim C7, evaluated where it fails: a route element without the `nr`
attribute, or without a nested `s` attribute, makes the handler panic, and
the complete route element that follows it yields no entry either. -/
theorem missing_attribute_panics (rfc3339 : Int → String) (clk : Clock) :
    (handler rfc3339
        (serve (stopDay [routeElem [("dir", "Centrum"), ("vt", "A")] [("s", "125")],
          route5 "125"]))
        clk DB.empty "5").outcome = .panicked ∧
      (handler rfc3339
        (serve (stopDay [.element "R" [("nr", "5"), ("dir", "Centrum"), ("vt", "A")] [],
          route5 "125"]))
        clk DB.empty "5").outcome = .panicked := by
  constructor <;> rfl

/-- Claim C8: on a valid stop identifier with a cache miss and an upstream
document without a `Stop/Day` node, the handler answers with the no-data
error, performs no insert, and the table afterwards is the swept table, all
of whose records were present before the request. -/
theorem no_data_leaves_store (rfc3339 : Int → String) (upstream : Int → Upstream)
    (clk : Clock) (db : DB) (param : String) (k : Int) (doc : Node)
    (hk : Atoi param = some k) (hk0 : k ≠ 0)
    (hmiss : ¬ 0 < ((queryRow k clk.lookupAt (sweep clk.sweepAt db)).getD Timetable.zero).ID)
    (hup : upstream k = .document doc) (hnone : findStopDay doc = none) :
    (handler rfc3339 upstream clk db param).outcome =
        .responded "\x7b\"error\":\"No data found for the given bus stop number\"\x7d" ∧
      Effect.insert ∉ (handler rfc3339 upstream clk db param).effects ∧
      (handler rfc3339 upstream clk db param).db.rows = (sweep clk.sweepAt db).rows ∧
      ∀ row ∈ (handler rfc3339 upstream clk db param).db.rows, row ∈ db.rows := by
  have e : handler rfc3339 upstream clk db param =
      ⟨sweep clk.sweepAt db,
        .responded (marshalError "No data found for the given bus stop number"),
        [.sweep, .lookup, .fetch]⟩ := by
    rw [handler_miss _ _ _ _ _ k hk hk0 hmiss]
    simp only [fetchTransformStore, hup, hnone]
  rw [e, marshalError_no_data]
  exact ⟨rfl, by simp, rfl, fun row hr => List.mem_of_mem_filter hr⟩

/-- Witness of claim C8: stop 5 on the empty table with an upstream document
that has no `Stop/Day` node. -/
theorem no_data_leaves_store_witness :
    (Atoi "5" = some 5 ∧ (5 : Int) ≠ 0 ∧
      ¬ 0 < ((queryRow 5 (clockAt 0 0).lookupAt (sweep (clockAt 0 0).sweepAt DB.empty)).getD
        Timetable.zero).ID ∧
      findStopDay noDayDoc = none) ∧
    ((handler sampleFormat (serve noDayDoc) (clockAt 0 0) DB.empty "5").outcome =
        .responded "\x7b\"error\":\"No data found for the given bus stop number\"\x7d" ∧
      Effect.insert ∉ (handler sampleFormat (serve noDayDoc) (clockAt 0 0) DB.empty "5").effects ∧
      (handler sampleFormat (serve noDayDoc) (clockAt 0 0) DB.empty "5").db.rows =
        (sweep (clockAt 0 0).sweepAt DB.empty).rows ∧
      ∀ row ∈ (handler sampleFormat (serve noDayDoc) (clockAt 0 0) DB.empty "5").db.rows,
        row ∈ DB.empty.rows) :=
  ⟨⟨by decide, by decide, by decide, rfl⟩,
    no_data_leaves_store sampleFormat (serve noDayDoc) (clockAt 0 0) DB.empty "5" 5 noDayDoc
      (by decide) (by decide) (by decide) rfl rfl⟩

/-- Claim C9, evaluated where it fails: for a document whose `Stop/Day` node
has no route element the response body, and the payload stored in the table,
is the object whose `timetable` field is `null`. -/
theorem empty_day_marshals_null (rfc3339 : Int → String) (clk : Clock) :
    (handler rfc3339 (serve (stopDay [])) clk DB.empty "5").outcome =
        .responded "\x7b\"timetable\":null\x7d" ∧
      (handler rfc3339 (serve (stopDay [])) clk DB.empty "5").db.rows =
        [⟨1, 5, "\x7b\"timetable\":null\x7d", clk.insertAt⟩] := by
  constructor <;> rfl

/-- Claim C10: a route element whose queries find the attributes yields an
entry, and the entry's `vehicle_type` is "BUS" for the code "A", "TRAM" for
the code "T", and the code itself for every other string. -/
theorem vehicle_type_mapping (rfc3339 : Int → String) (now : Int) (elapsed : Nat)
    (schedule : Node) (nr dir c s : String)
    (hnr : findAttr schedule "nr" = some nr) (hdir : findAttr schedule "dir" = some dir)
    (hvt : findAttr schedule "vt" = some c) (hs : findEstimate schedule = some s) :
    ∃ e, transformEntry rfc3339 now elapsed schedule = some e ∧
      (c = "A" → e.vehicle_type = "BUS") ∧ (c = "T" → e.vehicle_type = "TRAM") ∧
      (c ≠ "A" → c ≠ "T" → e.vehicle_type = c) := by
  have hmap : (c = "A" → vehicleTypeName c = "BUS") ∧ (c = "T" → vehicleTypeName c = "TRAM") ∧
      (c ≠ "A" → c ≠ "T" → vehicleTypeName c = c) := by
    refine ⟨fun h => ?_, fun h => ?_, fun h1 h2 => ?_⟩
    · simp [vehicleTypeName, h]
    · subst h; decide
    · simp [vehicleTypeName, h1, h2]
  cases hp : ParseInt s with
  | none =>
    refine ⟨⟨nr, dir, vehicleTypeName c, "Unknown", "Unknown"⟩, ?_, hmap⟩
    simp only [transformEntry, hnr, hdir, hvt, hs, hp]
  | some v =>
    refine ⟨⟨nr, dir, vehicleTypeName c, rfc3339 (now + wrapInt64 (v * Second)),
      humanEstimatedTime (saturateInt64 (wrapInt64 (v * Second) - elapsed))⟩, ?_, hmap⟩
    simp only [transformEntry, hnr, hdir, hvt, hs, hp]

/-- Witness of claim C10: the route element of the scenario, a bus. -/
theorem vehicle_type_mapping_witness :
    (findAttr (route5 "125") "nr" = some "5" ∧ findAttr (route5 "125") "dir" = some "Centrum" ∧
      findAttr (route5 "125") "vt" = some "A" ∧ findEstimate (route5 "125") = some "125") ∧
    ∃ e, transformEntry sampleFormat 0 0 (route5 "125") = some e ∧
      ("A" = "A" → e.vehicle_type = "BUS") ∧ ("A" = "T" → e.vehicle_type = "TRAM") ∧
      ("A" ≠ "A" → "A" ≠ "T" → e.vehicle_type = "A") :=
  ⟨⟨by decide, by decide, by decide, by decide⟩,
    vehicle_type_mapping sampleFormat 0 0 (route5 "125") "5" "Centrum" "A" "125"
      (by decide) (by decide) (by decide) (by decide)⟩

end MpkApi
